import Mathlib

/-!
Shallow embedding of the anomaly-detection app (`src/app.py`).

The program parses an uploaded CSV into a pandas DataFrame, trims the
column names, validates that at least two numeric columns exist, fits an
IsolationForest (contamination from a slider bounded [0.01, 0.20], fixed
`random_state=42`) on the two user-selected numeric columns, writes the
raw ±1 predictions into a new `anomaly_score` column, maps them to a
`Status` column (`{1: 'Normal', -1: 'Suspicious'}`), renders a scatter
chart, and, when the `Status == 'Suspicious'` subset is nonempty, reports
its size, displays it, and offers it as a UTF-8 CSV download
(`detected_anomalies.csv`, produced by `to_csv(index=False)`); when the
subset is empty it shows a success message instead.

Modelling conventions:
* a DataFrame is a list of named, dtype-tagged columns of equal length
  (rows are read off positionally across the columns);
* numeric cell values are idealized as exact integers: none of the claims
  under verification depends on fractional or floating-point behaviour of
  the data values themselves;
* the contamination slider value is an exact rational;
* `sklearn.ensemble.IsolationForest.fit_predict` is third-party library
  code, not part of this repository; it is modelled from the spec
  (see `fitPredict`).
-/

/-- Pandas column dtype, as used by `select_dtypes(include=['float64','int64'])`
in `app.py` line 29. -/
inductive Dtype where
  | int64
  | float64
  | object
deriving DecidableEq, Repr

/-- A single cell of the DataFrame: a numeric value (idealized as an exact
integer), a string, or a missing value (pandas `NaN`). -/
inductive Cell where
  | num (v : Int)
  | str (s : String)
  | nan
deriving DecidableEq, Repr

/-- A named, dtype-tagged column of cells. -/
structure Col where
  name : String
  dtype : Dtype
  vals : List Cell
deriving DecidableEq, Repr

/-- A pandas DataFrame: an ordered list of columns. -/
structure DataFrame where
  cols : List Col
deriving DecidableEq, Repr

/-- Number of rows of the frame (all columns of a well-formed frame have
this length). -/
def DataFrame.nrows (df : DataFrame) : Nat :=
  match df.cols with
  | [] => 0
  | c :: _ => c.vals.length

/-- Well-formedness: every column has exactly `nrows` entries. -/
def DataFrame.wfP (df : DataFrame) : Prop :=
  ∀ c ∈ df.cols, c.vals.length = df.nrows

instance (df : DataFrame) : Decidable df.wfP := by
  unfold DataFrame.wfP
  infer_instance

/-- Column lookup `df[name]` (first column with that name). -/
def DataFrame.getCol (df : DataFrame) (name : String) : Option Col :=
  df.cols.find? (fun c => c.name == name)

/-- Column assignment `df[c.name] = ...`: overwrite the existing column of
that name, or append a new column at the right end (pandas semantics). -/
def DataFrame.setCol (df : DataFrame) (c : Col) : DataFrame :=
  if df.cols.any (fun c0 => c0.name == c.name) then
    ⟨df.cols.map (fun c0 => if c0.name == c.name then c else c0)⟩
  else
    ⟨df.cols ++ [c]⟩

/-- Python `str.strip()`: drop whitespace from both ends of a string
(modelled on the character list so that it is kernel-executable). -/
def stripStr (s : String) : String :=
  ⟨((s.data.dropWhile Char.isWhitespace).reverse.dropWhile Char.isWhitespace).reverse⟩

/-- `df.columns.str.strip()` (app.py line 23): trim whitespace around every
column name. -/
def trimCols (df : DataFrame) : DataFrame :=
  ⟨df.cols.map (fun c => ⟨stripStr c.name, c.dtype, c.vals⟩)⟩

/-- `df.select_dtypes(include=['float64','int64']).columns.tolist()`
(app.py line 29): the names of the numeric columns. -/
def numericCols (df : DataFrame) : List String :=
  (df.cols.filter (fun c => c.dtype == Dtype.int64 || c.dtype == Dtype.float64)).map
    (fun c => c.name)

/-- Reading a numeric cell; non-numeric cells do not occur in the numeric
columns the scorer is fed in a run that does not raise. -/
def cellNum : Cell → Int
  | Cell.num v => v
  | _ => 0

/-- `df[[feature_x, feature_y]]` (app.py lines 46-47) read off as a row
list of value pairs fed to the scorer. -/
def featurePairs (df : DataFrame) (fx fy : String) : List (Int × Int) :=
  match df.getCol fx, df.getCol fy with
  | some cx, some cy => (cx.vals.map cellNum).zip (cy.vals.map cellNum)
  | _, _ => []

/-- Insertion into a list ranked by the priority test `before`. -/
def insertOrd {α : Type} (before : α → α → Bool) (a : α) : List α → List α
  | [] => [a]
  | b :: l => if before a b then a :: b :: l else b :: insertOrd before a l

/-- Insertion sort by the priority test `before` (used to rank points by
anomaly score). -/
def sortOrd {α : Type} (before : α → α → Bool) : List α → List α
  | [] => []
  | a :: l => insertOrd before a (sortOrd before l)

/-- Modelled from the spec: the number of anomalous labels handed out by
the scorer, `⌈contamination * n⌉`, computed on the numerator and
denominator so that it is kernel-executable (see `ceilMulNat_bounds`). -/
def ceilMulNat (c : Rat) (n : Nat) : Nat :=
  (c.num.toNat * n + c.den - 1) / c.den

/-- Modelled from the spec: the deterministic per-point anomaly score of
the scoring collaborator.  The forest of random partitioning trees of spec
§4.3 ("points that are isolated in fewer partitioning steps are scored as
more anomalous") is abstracted into a centroid-distance score: the scaled
L1 distance of the point from the centroid of the data (scaled by `n` to
stay in exact integers). -/
def anomalyScores (pts : List (Int × Int)) : List Nat :=
  let n := pts.length
  let sx := (pts.map Prod.fst).sum
  let sy := (pts.map Prod.snd).sum
  pts.map (fun p =>
    (p.1 * (n : Int) - sx).natAbs + (p.2 * (n : Int) - sy).natAbs)

/-- Modelled from the spec: the scoring collaborator
`score(rows, contamination, seed) -> labels` (spec §9), standing in for
`IsolationForest(contamination=..., random_state=seed).fit_predict`
(app.py lines 43-47), which is third-party library code not part of this
repository.  Per spec §4.3 it is an unsupervised outlier scorer over the
2-D feature space in which points isolated from the bulk of the data score
as more anomalous (here the deterministic `anomalyScores`; the seed
parameter is retained from the interface, and since the function is
deterministic its value is irrelevant), and its decision threshold is set
internally so that approximately a `contamination` fraction of the points
receives the anomalous raw label `-1`, every other point `+1`: the
threshold is the score of the `⌈contamination * n⌉`-th most anomalous
point and exactly the points scoring strictly above it are labelled `-1`.
So on generic data (pairwise distinct scores) `⌈contamination * n⌉ - 1`
points are flagged, while ties at the threshold reduce the count — the
tie-breaking caveat of spec §3 — and a very low contamination can yield an
empty anomaly set (spec §8.8).  `scoreAt` reads off the score of point
`i`, `rankBefore` is the ranking order, and `fitPredict` is the scorer
itself. -/
def scoreAt (pts : List (Int × Int)) (i : Nat) : Nat :=
  (anomalyScores pts).getD i 0

/-- The ranking order of the modelled scorer: higher score first, ties by
row position. -/
def rankBefore (pts : List (Int × Int)) (i j : Nat) : Bool :=
  decide (scoreAt pts j < scoreAt pts i ∨ (scoreAt pts i = scoreAt pts j ∧ i ≤ j))

/-- Modelled from the spec: the raw label list of the scoring collaborator
(see the comment on `scoreAt`). -/
def fitPredict (seed : Nat) (contamination : Rat) (pts : List (Int × Int)) : List Int :=
  let n := pts.length
  let k := ceilMulNat contamination n
  let kthScore :=
    ((sortOrd (rankBefore pts) (List.range n)).map (scoreAt pts)).getD (k - 1) 0
  (List.range n).map (fun i =>
    if k ≠ 0 ∧ kthScore < scoreAt pts i then (-1 : Int) else 1)

/-- The label translation `{1: 'Normal', -1: 'Suspicious'}` of
`df['anomaly_score'].map` (app.py line 50); any other key is mapped by
pandas to `NaN`. -/
def statusMap (v : Int) : Cell :=
  if v = 1 then Cell.str "Normal"
  else if v = -1 then Cell.str "Suspicious"
  else Cell.nan

/-- The scoring step, app.py lines 43-50: fit the model on the two
selected columns with the fixed seed 42, store the raw predictions in
`anomaly_score`, and their translation in `Status`. -/
def scoreDF (df : DataFrame) (fx fy : String) (contamination : Rat) : DataFrame :=
  let raw := fitPredict 42 contamination (featurePairs df fx fy)
  let df1 := df.setCol ⟨"anomaly_score", Dtype.int64, raw.map Cell.num⟩
  df1.setCol ⟨"Status", Dtype.object, raw.map statusMap⟩

/-- The row mask `df['Status'] == 'Suspicious'`. -/
def suspiciousMask (df : DataFrame) : List Bool :=
  match df.getCol "Status" with
  | some c => c.vals.map (fun v => v == Cell.str "Suspicious")
  | none => []

/-- Keep the entries of `vals` whose mask bit is true. -/
def maskFilter (mask : List Bool) (vals : List Cell) : List Cell :=
  ((mask.zip vals).filter Prod.fst).map Prod.snd

/-- Boolean row filtering `df[mask]`. -/
def DataFrame.filterRows (df : DataFrame) (mask : List Bool) : DataFrame :=
  ⟨df.cols.map (fun c => ⟨c.name, c.dtype, maskFilter mask c.vals⟩)⟩

/-- `anomalies = df[df['Status'] == 'Suspicious']` (app.py line 69). -/
def anomaliesOf (df : DataFrame) : DataFrame :=
  df.filterRows (suspiciousMask df)

/-- The `Status` column values of a frame: the labels of the scored rows. -/
def statusVals (df : DataFrame) : List Cell :=
  match df.getCol "Status" with
  | some c => c.vals
  | none => []

/-- The sidebar parameters of one run (app.py lines 37-40): the two
selected feature columns and the contamination slider value. -/
structure Params where
  feature_x : String
  feature_y : String
  contamination : Rat
deriving DecidableEq, Repr

/-- The labels one run assigns to the rows of the uploaded frame. -/
def labelsOf (df : DataFrame) (p : Params) : List Cell :=
  statusVals (scoreDF (trimCols df) p.feature_x p.feature_y p.contamination)

/-- Minimal CSV field quoting (the pandas `to_csv` default `QUOTE_MINIMAL`):
a field containing the delimiter, a quote or a newline is wrapped in double
quotes with inner quotes doubled. -/
def csvQuote (s : String) : String :=
  if s.contains ',' || s.contains '"' || s.contains '\n' then
    "\"" ++ s.replace "\"" "\"\"" ++ "\""
  else s

/-- CSV rendering of one cell. -/
def csvCell : Cell → String
  | Cell.num v => toString v
  | Cell.str s => csvQuote s
  | Cell.nan => ""

/-- The header line of `to_csv(index=False)`: the column names, comma
separated, with no leading index column. -/
def csvHeader (df : DataFrame) : String :=
  String.intercalate "," (df.cols.map (fun c => csvQuote c.name))

/-- Data line `i` of `to_csv(index=False)`: the cells of row `i`, comma
separated, with no leading index value. -/
def csvRow (df : DataFrame) (i : Nat) : String :=
  String.intercalate "," (df.cols.map (fun c => csvCell (c.vals.getD i Cell.nan)))

/-- `df.to_csv(index=False)` (app.py line 76): the header line followed by
one line per row, each line newline-terminated. -/
def toCsv (df : DataFrame) : String :=
  csvHeader df ++ "\n" ++
    String.join ((List.range df.nrows).map (fun i => csvRow df i ++ "\n"))

/-- The scatter-chart configuration of `px.scatter` (app.py lines 55-63):
axes, color/symbol encoding by `Status` with the two fixed colors, hover
data over all columns of the scored frame, and the feature-pair title. -/
structure ChartSpec where
  xCol : String
  yCol : String
  colorField : String
  symbolField : String
  normalColor : String
  suspiciousColor : String
  hoverCols : List String
  title : String
deriving DecidableEq, Repr

/-- Build the chart configuration from the scored frame and feature pair. -/
def chartOf (scored : DataFrame) (fx fy : String) : ChartSpec :=
  ⟨fx, fy, "Status", "Status", "#00CC96", "#EF553B",
    scored.cols.map (fun c => c.name),
    "Anomaly Detection: " ++ fx ++ " vs " ++ fy⟩

/-- Whether a cell is a genuine numeric value (as opposed to missing or
non-numeric). -/
def numericCell : Cell → Bool
  | Cell.num _ => true
  | _ => false

/-- Modelled from the spec (§4.3 failure mode, §7): `fit_predict` — library
code outside this repository — raises on an empty frame or on missing or
non-numeric values in a selected feature column (and `df[features]` raises
when a selected column does not exist); every such exception reaches the
top-level `try` (app.py lines 20, 86-87) and is rendered as the generic
processing-error message.  `scoreOk` is the complement of that failure
condition. -/
def scoreOk (df : DataFrame) (fx fy : String) : Bool :=
  match df.getCol fx, df.getCol fy with
  | some cx, some cy =>
      decide (df.nrows ≠ 0) && cx.vals.all numericCell && cy.vals.all numericCell
  | _, _ => false

/-- The validation error text of app.py line 32. -/
def validationMsg : String :=
  "The uploaded file needs at least two numeric columns for analysis."

/-- The empty-anomaly-set success text of app.py line 84. -/
def noAnomalyMsg : String := "No anomalies detected with current settings."

/-- The caption of app.py line 93, rendered on every script run. -/
def footerText : String :=
  "Machine Learning Anomaly Detection System | Powered by Isolation Forest"

/-- The prefix of the top-level exception message of app.py line 87; the
suffix interpolates the exception text. -/
def processErrMsg : String := "An error occurred while processing the file: "

/-- Modelled from the spec (§7 taxonomy): the exception text interpolated
into the processing-error message when the scoring step raises; its exact
wording comes from the scoring library and is not fixed by the spec. -/
def scoringErrText : String := "ScoringError"

/-- `df.head()` (app.py line 25): the first five rows. -/
def dfHead (df : DataFrame) : DataFrame :=
  ⟨df.cols.map (fun c => ⟨c.name, c.dtype, c.vals.take 5⟩)⟩

/-- The user-visible outputs of one script run, in render order (the
sidebar widgets themselves are elided; `payload` is the byte content
offered by `st.download_button`). -/
inductive RenderItem where
  | info (msg : String)
  | errorMsg (msg : String)
  | preview (df : DataFrame)
  | chart (c : ChartSpec)
  | countMsg (n : Nat)
  | tableView (df : DataFrame)
  | downloadButton (fileName : String) (mime : String) (payload : ByteArray)
  | successMsg (msg : String)
  | footer (s : String)

/-- One pipeline run over a successfully parsed frame, app.py lines 22-87:
trim the column names, preview, validate the numeric column count, score,
plot, and report or export the `Status == 'Suspicious'` subset.  The
returned list holds the user-visible outputs in render order; when the
scoring step raises (see `scoreOk`), the items already rendered stay on
screen and the top-level handler appends the generic processing-error
message. -/
def renderRun (df0 : DataFrame) (p : Params) : List RenderItem :=
  let df := trimCols df0
  let pre := [RenderItem.preview (dfHead df)]
  if (numericCols df).length < 2 then
    pre ++ [RenderItem.errorMsg validationMsg]
  else if scoreOk df p.feature_x p.feature_y = false then
    pre ++ [RenderItem.errorMsg (processErrMsg ++ scoringErrText)]
  else
    let scored := scoreDF df p.feature_x p.feature_y p.contamination
    let anomalies := anomaliesOf scored
    pre ++ [RenderItem.chart (chartOf scored p.feature_x p.feature_y)] ++
      (if anomalies.nrows ≠ 0 then
        [RenderItem.countMsg anomalies.nrows,
         RenderItem.tableView anomalies,
         RenderItem.downloadButton "detected_anomalies.csv" "text/csv"
           (toCsv anomalies).toUTF8]
      else
        [RenderItem.successMsg noAnomalyMsg])

/-- The whole script (app.py lines 19-93): an optional parsed upload, the
per-upload run, and the closing footer; with no upload only the prompt and
the footer are shown. -/
def script (upload : Option DataFrame) (p : Params) : List RenderItem :=
  (match upload with
   | none => [RenderItem.info "👆 Please upload a CSV file to begin the analysis."]
   | some df => renderRun df p) ++ [RenderItem.footer footerText]

/-- A decidable sanity example for the embedding: two numeric columns over
ten rows, one far outlier in the last row. -/
def exFrame : DataFrame :=
  ⟨[⟨"a", Dtype.int64, [Cell.num 0, Cell.num 0, Cell.num 0, Cell.num 0, Cell.num 0,
      Cell.num 0, Cell.num 0, Cell.num 0, Cell.num 0, Cell.num 100]⟩,
    ⟨"b", Dtype.int64, [Cell.num 0, Cell.num 0, Cell.num 0, Cell.num 0, Cell.num 0,
      Cell.num 0, Cell.num 0, Cell.num 0, Cell.num 0, Cell.num 100]⟩]⟩

/-- A second sanity frame: pairwise distinct anomaly scores (generic
data), used where the no-ties hypothesis matters. -/
def exFrameD : DataFrame :=
  ⟨[⟨"a", Dtype.int64, [Cell.num 0, Cell.num 1, Cell.num 2, Cell.num 3, Cell.num 4,
      Cell.num 5, Cell.num 6, Cell.num 7, Cell.num 8, Cell.num 100]⟩,
    ⟨"b", Dtype.int64, [Cell.num 0, Cell.num 1, Cell.num 2, Cell.num 3, Cell.num 4,
      Cell.num 5, Cell.num 6, Cell.num 7, Cell.num 8, Cell.num 100]⟩]⟩

example : numericCols exFrame = ["a", "b"] := by decide

example : ceilMulNat (mkRat 1 5) 10 = 2 := by decide

example : ceilMulNat (mkRat 1 100) 10 = 1 := by decide

example :
    fitPredict 42 (mkRat 1 5) (featurePairs exFrame "a" "b") =
      [1, 1, 1, 1, 1, 1, 1, 1, 1, -1] := by decide

example :
    fitPredict 42 (mkRat 1 100) (featurePairs exFrame "a" "b") =
      [1, 1, 1, 1, 1, 1, 1, 1, 1, 1] := by decide

example :
    (scoreDF exFrame "a" "b" (mkRat 1 5)).getCol "Status" =
      some ⟨"Status", Dtype.object,
        [Cell.str "Normal", Cell.str "Normal", Cell.str "Normal", Cell.str "Normal",
         Cell.str "Normal", Cell.str "Normal", Cell.str "Normal", Cell.str "Normal",
         Cell.str "Normal", Cell.str "Suspicious"]⟩ := by decide

example : (anomaliesOf (scoreDF exFrame "a" "b" (mkRat 1 5))).nrows = 1 := by decide

example : (anomaliesOf (scoreDF exFrame "a" "b" (mkRat 1 100))).nrows = 0 := by decide

example : (anomalyScores (featurePairs exFrameD "a" "b")).Nodup := by decide

example : (anomaliesOf (scoreDF exFrameD "a" "b" (mkRat 1 5))).nrows = 1 := by decide

example : scoreOk exFrame "a" "b" = true := by decide

example : (renderRun exFrame ⟨"a", "b", mkRat 1 5⟩).length = 5 := by decide

example : (renderRun exFrame ⟨"a", "b", mkRat 1 100⟩).length = 3 := by decide

example :
    (trimCols ⟨[⟨" a ", Dtype.int64, [Cell.num 3]⟩]⟩).cols.map Col.name = ["a"] := by
  decide

/-! Frame lemmas: how `getCol` interacts with `setCol`, and preservation of
well-formedness through the scoring step. -/

/-- Replacing every column named `c.name` makes `find?` for that name
return `c`, provided some column carried the name. -/
theorem find?_replace_self (l : List Col) (c : Col)
    (h : l.any (fun c0 => c0.name == c.name) = true) :
    (l.map (fun c0 => if c0.name == c.name then c else c0)).find?
      (fun c0 => c0.name == c.name) = some c := by
  induction l with
  | nil => simp at h
  | cons hd tl ih =>
    rw [List.map_cons]
    by_cases hh : hd.name = c.name
    · rw [if_pos (by simpa using hh)]
      have hb : (c.name == c.name) = true := by simp
      simp only [List.find?, hb]
    · rw [if_neg (by simpa using hh)]
      have hb : (hd.name == c.name) = false := beq_eq_false_iff_ne.mpr hh
      simp only [List.find?, hb]
      apply ih
      simp only [List.any_cons, Bool.or_eq_true] at h
      rcases h with h | h
      · exact absurd (by simpa using h) hh
      · exact h

/-- Looking up a name different from the replaced one is unaffected. -/
theorem find?_replace_ne (l : List Col) (c : Col) (nm : String) (h : nm ≠ c.name) :
    (l.map (fun c0 => if c0.name == c.name then c else c0)).find?
        (fun c0 => c0.name == nm) =
      l.find? (fun c0 => c0.name == nm) := by
  induction l with
  | nil => rfl
  | cons hd tl ih =>
    rw [List.map_cons]
    by_cases hh : hd.name = c.name
    · have h1 : (c.name == nm) = false :=
        beq_eq_false_iff_ne.mpr (fun hc => h hc.symm)
      have h2 : (hd.name == nm) = false := by
        rw [hh]
        exact h1
      rw [if_pos (by simpa using hh)]
      simp only [List.find?, h1, h2]
      exact ih
    · by_cases hn : hd.name = nm
      · have hb : (hd.name == nm) = true := by simpa using hn
        rw [if_neg (by simpa using hh)]
        simp only [List.find?, hb]
      · have hb : (hd.name == nm) = false := beq_eq_false_iff_ne.mpr hn
        rw [if_neg (by simpa using hh)]
        simp only [List.find?, hb]
        exact ih

/-- `setCol` then `getCol` for the written name yields the written column. -/
theorem getCol_setCol_self (df : DataFrame) (c : Col) :
    (df.setCol c).getCol c.name = some c := by
  unfold DataFrame.setCol DataFrame.getCol
  by_cases h : df.cols.any (fun c0 => c0.name == c.name) = true
  · rw [if_pos h]
    exact find?_replace_self df.cols c h
  · rw [if_neg h]
    have hnone : df.cols.find? (fun c0 => c0.name == c.name) = none := by
      rw [List.find?_eq_none]
      intro x hx hbeq
      exact h (List.any_eq_true.mpr ⟨x, hx, hbeq⟩)
    rw [List.find?_append, hnone, Option.none_or]
    have hb : (c.name == c.name) = true := by simp
    simp only [List.find?, hb]

/-- `setCol` then `getCol` for any other name is lookup in the old frame. -/
theorem getCol_setCol_ne (df : DataFrame) (c : Col) (nm : String) (h : nm ≠ c.name) :
    (df.setCol c).getCol nm = df.getCol nm := by
  unfold DataFrame.setCol DataFrame.getCol
  by_cases ha : df.cols.any (fun c0 => c0.name == c.name) = true
  · rw [if_pos ha]
    exact find?_replace_ne df.cols c nm h
  · rw [if_neg ha, List.find?_append]
    have hb : (c.name == nm) = false :=
      beq_eq_false_iff_ne.mpr (fun hc => h hc.symm)
    have hzero : [c].find? (fun c0 => c0.name == nm) = none := by
      simp only [List.find?, hb]
    rw [hzero, Option.or_none]

/-- Every column of `df.setCol c` is an old column or `c` itself. -/
theorem mem_setCol {df : DataFrame} {c c2 : Col} (h : c2 ∈ (df.setCol c).cols) :
    c2 ∈ df.cols ∨ c2 = c := by
  unfold DataFrame.setCol at h
  by_cases ha : df.cols.any (fun c0 => c0.name == c.name) = true
  · rw [if_pos ha] at h
    obtain ⟨c0, hc0, heq⟩ := List.mem_map.mp h
    by_cases hh : c0.name = c.name
    · right
      rw [← heq]
      simp [hh]
    · left
      rw [← heq]
      simpa [hh] using hc0
  · rw [if_neg ha] at h
    rcases List.mem_append.mp h with h | h
    · exact Or.inl h
    · exact Or.inr (by simpa using h)

/-- `setCol` with a column of the right length preserves the row count. -/
theorem nrows_setCol (df : DataFrame) (c : Col) (hlen : c.vals.length = df.nrows) :
    (df.setCol c).nrows = df.nrows := by
  unfold DataFrame.setCol
  by_cases ha : df.cols.any (fun c0 => c0.name == c.name) = true
  · rw [if_pos ha]
    rcases hc : df.cols with _ | ⟨hd, tl⟩
    · rw [hc] at ha
      simp at ha
    · have hhd : hd.vals.length = df.nrows := by
        unfold DataFrame.nrows
        rw [hc]
      show (if hd.name == c.name then c else hd).vals.length = df.nrows
      by_cases hh : hd.name = c.name
      · rw [if_pos (by simpa using hh)]
        exact hlen
      · rw [if_neg (by simpa using hh)]
        exact hhd
  · rw [if_neg ha]
    rcases hc : df.cols with _ | ⟨hd, tl⟩
    · show c.vals.length = df.nrows
      exact hlen
    · show hd.vals.length = df.nrows
      unfold DataFrame.nrows
      rw [hc]

/-- `setCol` with a column of the right length preserves well-formedness. -/
theorem wfP_setCol {df : DataFrame} {c : Col} (hwf : df.wfP)
    (hlen : c.vals.length = df.nrows) : (df.setCol c).wfP := by
  intro c2 hc2
  rw [nrows_setCol df c hlen]
  rcases mem_setCol hc2 with h | h
  · exact hwf c2 h
  · rw [h]; exact hlen

/-- `setCol` never empties the column list. -/
theorem cols_setCol_ne_nil (df : DataFrame) (c : Col) : (df.setCol c).cols ≠ [] := by
  unfold DataFrame.setCol
  by_cases ha : df.cols.any (fun c0 => c0.name == c.name) = true
  · rw [if_pos ha]
    intro hmap
    rw [List.map_eq_nil_iff] at hmap
    rw [hmap] at ha
    simp at ha
  · rw [if_neg ha]
    simp

/-- Trimming column names changes neither the row count... -/
theorem trimCols_nrows (df : DataFrame) : (trimCols df).nrows = df.nrows := by
  unfold trimCols DataFrame.nrows
  cases df.cols <;> rfl

/-- ...nor well-formedness. -/
theorem trimCols_wfP {df : DataFrame} (hwf : df.wfP) : (trimCols df).wfP := by
  intro c2 hc2
  rw [trimCols_nrows]
  unfold trimCols at hc2
  obtain ⟨c0, hc0, heq⟩ := List.mem_map.mp hc2
  rw [← heq]
  exact hwf c0 hc0

/-- A name in the numeric column set can be looked up, and the column found
is one of the frame's columns. -/
theorem getCol_of_mem_numericCols {df : DataFrame} {nm : String}
    (h : nm ∈ numericCols df) :
    ∃ c, df.getCol nm = some c ∧ c ∈ df.cols ∧ c.name = nm := by
  unfold numericCols at h
  obtain ⟨c, hc, hname⟩ := List.mem_map.mp h
  have hmem : c ∈ df.cols := (List.mem_filter.mp hc).1
  have hsome : (df.cols.find? (fun c0 => c0.name == nm)).isSome := by
    rw [List.find?_isSome]
    exact ⟨c, hmem, by simp [hname]⟩
  obtain ⟨c2, hc2⟩ := Option.isSome_iff_exists.mp hsome
  refine ⟨c2, hc2, List.mem_of_find?_eq_some hc2, ?_⟩
  simpa using List.find?_some hc2

/-- A nonempty numeric column set forces a nonempty column list. -/
theorem cols_ne_nil_of_mem_numericCols {df : DataFrame} {nm : String}
    (h : nm ∈ numericCols df) : df.cols ≠ [] := by
  obtain ⟨c, _, hmem, _⟩ := getCol_of_mem_numericCols h
  intro hnil
  rw [hnil] at hmem
  exact List.not_mem_nil c hmem

/-- The scorer is fed one feature pair per row of a well-formed frame. -/
theorem featurePairs_length {df : DataFrame} {fx fy : String} {cx cy : Col}
    (hwf : df.wfP) (hx : df.getCol fx = some cx) (hy : df.getCol fy = some cy) :
    (featurePairs df fx fy).length = df.nrows := by
  unfold featurePairs
  rw [hx, hy]
  have hcx := hwf cx (List.mem_of_find?_eq_some hx)
  have hcy := hwf cy (List.mem_of_find?_eq_some hy)
  simp [hcx, hcy]

/-- The scorer hands out one raw label per input point. -/
theorem fitPredict_length (seed : Nat) (c : Rat) (pts : List (Int × Int)) :
    (fitPredict seed c pts).length = pts.length := by
  unfold fitPredict
  simp

/-- Every raw label of the scorer is `-1` or `1`. -/
theorem fitPredict_mem {seed : Nat} {c : Rat} {pts : List (Int × Int)} {v : Int}
    (h : v ∈ fitPredict seed c pts) : v = -1 ∨ v = 1 := by
  unfold fitPredict at h
  simp only [List.mem_map] at h
  obtain ⟨i, _, hv⟩ := h
  split at hv
  · exact Or.inl hv.symm
  · exact Or.inr hv.symm

/-- The raw prediction list of one scoring step (app.py line 47), with the
fixed seed 42. -/
def rawOf (df : DataFrame) (fx fy : String) (c : Rat) : List Int :=
  fitPredict 42 c (featurePairs df fx fy)

/-- The scoring step writes exactly the raw predictions, wrapped as
integer cells, into the `anomaly_score` column. -/
theorem ascoreCol_scoreDF (df : DataFrame) (fx fy : String) (c : Rat) :
    (scoreDF df fx fy c).getCol "anomaly_score" =
      some ⟨"anomaly_score", Dtype.int64, (rawOf df fx fy c).map Cell.num⟩ := by
  unfold scoreDF
  rw [getCol_setCol_ne]
  · exact getCol_setCol_self _ ⟨"anomaly_score", Dtype.int64, _⟩
  · show "anomaly_score" ≠ "Status"
    decide

/-- The scoring step writes exactly the translated predictions into the
`Status` column. -/
theorem statusCol_scoreDF (df : DataFrame) (fx fy : String) (c : Rat) :
    (scoreDF df fx fy c).getCol "Status" =
      some ⟨"Status", Dtype.object, (rawOf df fx fy c).map statusMap⟩ :=
  getCol_setCol_self _ ⟨"Status", Dtype.object, _⟩

/-- The label list of a scored frame is the translation of the raw
prediction list. -/
theorem statusVals_scoreDF (df : DataFrame) (fx fy : String) (c : Rat) :
    statusVals (scoreDF df fx fy c) = (rawOf df fx fy c).map statusMap := by
  unfold statusVals
  rw [statusCol_scoreDF]

/-- A scored well-formed frame carries one label per row. -/
theorem statusVals_scoreDF_length {df : DataFrame} {fx fy : String} {cx cy : Col}
    (hwf : df.wfP) (hx : df.getCol fx = some cx) (hy : df.getCol fy = some cy)
    (c : Rat) :
    (statusVals (scoreDF df fx fy c)).length = df.nrows := by
  rw [statusVals_scoreDF]
  rw [List.length_map]
  unfold rawOf
  rw [fitPredict_length]
  exact featurePairs_length hwf hx hy

/-- Every label of a scored frame is `Normal` or `Suspicious`. -/
theorem statusVals_scoreDF_mem {df : DataFrame} {fx fy : String} {c : Rat}
    {v : Cell} (h : v ∈ statusVals (scoreDF df fx fy c)) :
    v = Cell.str "Normal" ∨ v = Cell.str "Suspicious" := by
  rw [statusVals_scoreDF] at h
  obtain ⟨r, hr, hv⟩ := List.mem_map.mp h
  rcases fitPredict_mem hr with h1 | h1 <;> rw [h1] at hv <;> rw [← hv]
  · right
    decide
  · left
    decide

/-! Ranking lemmas: the insertion sort used by the modelled scorer is a
permutation and, for a total transitive priority test, sorts. -/

/-- Inserting reorders a cons. -/
theorem insertOrd_perm {α : Type} (before : α → α → Bool) (a : α) (l : List α) :
    List.Perm (insertOrd before a l) (a :: l) := by
  induction l with
  | nil => exact List.Perm.refl [a]
  | cons b t ih =>
    unfold insertOrd
    by_cases h : before a b = true
    · rw [if_pos h]
    · rw [if_neg h]
      exact (ih.cons b).trans (List.Perm.swap a b t)

/-- Sorting permutes. -/
theorem sortOrd_perm {α : Type} (before : α → α → Bool) (l : List α) :
    List.Perm (sortOrd before l) l := by
  induction l with
  | nil => exact List.Perm.refl []
  | cons a t ih =>
    exact (insertOrd_perm before a (sortOrd before t)).trans (ih.cons a)

/-- Inserting into a ranked list keeps it ranked, for a total and
transitive priority test. -/
theorem insertOrd_pairwise {α : Type} {before : α → α → Bool}
    (htot : ∀ x y, before x y = true ∨ before y x = true)
    (htrans : ∀ x y z, before x y = true → before y z = true → before x z = true)
    (a : α) {l : List α} (hl : l.Pairwise (fun x y => before x y = true)) :
    (insertOrd before a l).Pairwise (fun x y => before x y = true) := by
  induction l with
  | nil => simp [insertOrd]
  | cons b t ih =>
    rcases List.pairwise_cons.mp hl with ⟨hb, ht⟩
    unfold insertOrd
    by_cases h : before a b = true
    · rw [if_pos h]
      refine List.pairwise_cons.mpr ⟨?_, hl⟩
      intro x hx
      rcases List.mem_cons.mp hx with rfl | hx
      · exact h
      · exact htrans a b x h (hb x hx)
    · rw [if_neg h]
      have hba : before b a = true := (htot a b).resolve_left h
      refine List.pairwise_cons.mpr ⟨?_, ih ht⟩
      intro x hx
      have hx2 : x ∈ a :: t := (insertOrd_perm before a t).mem_iff.mp hx
      rcases List.mem_cons.mp hx2 with rfl | hx2
      · exact hba
      · exact hb x hx2

/-- The sort output is ranked, for a total and transitive priority test. -/
theorem sortOrd_pairwise {α : Type} {before : α → α → Bool}
    (htot : ∀ x y, before x y = true ∨ before y x = true)
    (htrans : ∀ x y z, before x y = true → before y z = true → before x z = true)
    (l : List α) :
    (sortOrd before l).Pairwise (fun x y => before x y = true) := by
  induction l with
  | nil => simp [sortOrd]
  | cons a t ih => exact insertOrd_pairwise htot htrans a ih

/-- In a strictly decreasing list, exactly `j` entries exceed entry `j`. -/
theorem countP_getD_of_pairwise {S : List Nat}
    (hS : S.Pairwise (fun a b => b < a)) :
    ∀ j, j < S.length → S.countP (fun x => decide (S.getD j 0 < x)) = j := by
  induction hS with
  | nil =>
    intro j hj
    simp at hj
  | @cons a t ha ht ih =>
    intro j hj
    cases j with
    | zero =>
      simp only [List.getD_cons_zero]
      rw [List.countP_cons]
      have h0 : t.countP (fun x => decide (a < x)) = 0 := by
        rw [List.countP_eq_zero]
        intro x hx
        simpa using Nat.le_of_lt (ha x hx)
      simp [h0]
    | succ j =>
      have hj2 : j < t.length := by simpa using hj
      simp only [List.getD_cons_succ]
      rw [List.countP_cons]
      have hmem : t.getD j 0 ∈ t := by
        rw [List.getD_eq_getElem t 0 hj2]
        exact List.getElem_mem hj2
      have hlt : t.getD j 0 < a := ha _ hmem
      rw [ih j hj2]
      have hlt2 : t[j]?.getD 0 < a := by
        rw [← List.getD_eq_getElem?_getD]
        exact hlt
      simp [hlt2]

/-- With pairwise distinct anomaly scores, the score read-off is injective
on row indices. -/
theorem scoreAt_inj {pts : List (Int × Int)} (hnd : (anomalyScores pts).Nodup)
    {i j : Nat} (hi : i < pts.length) (hj : j < pts.length)
    (heq : scoreAt pts i = scoreAt pts j) : i = j := by
  have hlen : (anomalyScores pts).length = pts.length := by
    unfold anomalyScores
    simp
  unfold scoreAt at heq
  rw [List.getD_eq_getElem (anomalyScores pts) 0 (show i < (anomalyScores pts).length by omega),
    List.getD_eq_getElem (anomalyScores pts) 0 (show j < (anomalyScores pts).length by omega)]
    at heq
  exact (List.Nodup.getElem_inj_iff hnd).mp heq

/-- On generic data — pairwise distinct anomaly scores — the modelled
scorer flags exactly `⌈contamination * n⌉ - 1` points. -/
theorem fitPredict_count (seed : Nat) (c : Rat) (pts : List (Int × Int))
    (hnd : (anomalyScores pts).Nodup)
    (hk1 : 1 ≤ ceilMulNat c pts.length)
    (hkn : ceilMulNat c pts.length ≤ pts.length) :
    (fitPredict seed c pts).count (-1) = ceilMulNat c pts.length - 1 := by
  have hperm : List.Perm (sortOrd (rankBefore pts) (List.range pts.length))
      (List.range pts.length) := sortOrd_perm _ _
  have hmemn : ∀ i ∈ sortOrd (rankBefore pts) (List.range pts.length), i < pts.length :=
    fun i hi => List.mem_range.mp (hperm.mem_iff.mp hi)
  have hrankedPW : (sortOrd (rankBefore pts) (List.range pts.length)).Pairwise
      (fun i j => rankBefore pts i j = true) := by
    apply sortOrd_pairwise
    · intro x y
      unfold rankBefore
      simp only [decide_eq_true_eq]
      omega
    · intro x y z hxy hyz
      unfold rankBefore at hxy hyz ⊢
      simp only [decide_eq_true_eq] at hxy hyz ⊢
      omega
  have hrankedND : (sortOrd (rankBefore pts) (List.range pts.length)).Nodup :=
    hperm.nodup_iff.mpr (List.nodup_range _)
  have hSpw : ((sortOrd (rankBefore pts) (List.range pts.length)).map
      (scoreAt pts)).Pairwise (fun a b => b < a) := by
    rw [List.pairwise_map]
    refine List.Pairwise.imp_of_mem ?_ (hrankedPW.and hrankedND)
    intro i j hi hj hij
    rcases hij with ⟨hbef, hne⟩
    unfold rankBefore at hbef
    simp only [decide_eq_true_eq] at hbef
    rcases hbef with h | ⟨heq, _⟩
    · exact h
    · exact absurd (scoreAt_inj hnd (hmemn i hi) (hmemn j hj) heq) hne
  show ((List.range pts.length).map (fun i =>
      if ceilMulNat c pts.length ≠ 0 ∧
          ((sortOrd (rankBefore pts) (List.range pts.length)).map (scoreAt pts)).getD
            (ceilMulNat c pts.length - 1) 0 < scoreAt pts i
      then (-1 : Int) else 1)).count (-1) = ceilMulNat c pts.length - 1
  set n := pts.length with hn
  set k := ceilMulNat c n with hk
  set R := sortOrd (rankBefore pts) (List.range n) with hR
  set S := R.map (scoreAt pts) with hS
  have hSlen : S.length = n := by
    rw [hS, List.length_map, hperm.length_eq, List.length_range]
  have hstep1 : ((List.range n).map (fun i =>
      if k ≠ 0 ∧ S.getD (k - 1) 0 < scoreAt pts i then (-1 : Int) else 1)).count (-1) =
        (List.range n).countP (fun i => decide (S.getD (k - 1) 0 < scoreAt pts i)) := by
    show ((List.range n).map (fun i =>
        if k ≠ 0 ∧ S.getD (k - 1) 0 < scoreAt pts i then (-1 : Int) else 1)).countP
          (fun x => x == -1) = _
    rw [List.countP_map]
    apply List.countP_congr
    intro i _
    by_cases hcond : S[k - 1]?.getD 0 < scoreAt pts i
    · have hk0 : k ≠ 0 := by omega
      simp [Function.comp, hcond, hk0]
    · simp [Function.comp, hcond]
  have hstep2 : (List.range n).countP (fun i => decide (S.getD (k - 1) 0 < scoreAt pts i)) =
      R.countP (fun i => decide (S.getD (k - 1) 0 < scoreAt pts i)) :=
    (hperm.countP_eq _).symm
  have hstep3 : R.countP (fun i => decide (S.getD (k - 1) 0 < scoreAt pts i)) =
      S.countP (fun x => decide (S.getD (k - 1) 0 < x)) := by
    rw [hS, List.countP_map]
    rfl
  have hstep4 : S.countP (fun x => decide (S.getD (k - 1) 0 < x)) = k - 1 :=
    countP_getD_of_pairwise hSpw (k - 1) (by omega)
  rw [hstep1, hstep2, hstep3, hstep4]

/-- A positive contamination hands out at least one candidate slot. -/
theorem ceilMulNat_one_le {c : Rat} {n : Nat} (hc : mkRat 1 100 ≤ c) (hn : 1 ≤ n) :
    1 ≤ ceilMulNat c n := by
  have hc0 : (0 : ℚ) < c := by
    refine lt_of_lt_of_le ?_ hc
    rw [Rat.mkRat_eq_div]
    norm_num
  have hnum : 0 < c.num := Rat.num_pos.mpr hc0
  have hq : 0 < c.den := c.den_pos
  have hp : 1 ≤ c.num.toNat := by omega
  unfold ceilMulNat
  rw [Nat.one_le_div_iff hq]
  have hmul : 1 * 1 ≤ c.num.toNat * n := Nat.mul_le_mul hp hn
  omega

/-- Within the slider range the candidate slots never exceed the rows. -/
theorem ceilMulNat_le_self {c : Rat} {n : Nat} (hc : c ≤ mkRat 20 100) :
    ceilMulNat c n ≤ n := by
  have hlt1 : c < 1 := by
    refine lt_of_le_of_lt hc ?_
    rw [Rat.mkRat_eq_div]
    norm_num
  have hnd : c.num < c.den := Rat.lt_one_iff_num_lt_denom.mp hlt1
  have hq : 0 < c.den := c.den_pos
  have hp : c.num.toNat ≤ c.den := by omega
  unfold ceilMulNat
  rw [Nat.div_le_iff_le_mul_add_pred hq]
  have hmul : c.num.toNat * n ≤ c.den * n := Nat.mul_le_mul_right n hp
  have hcomm : c.den * n = n * c.den := Nat.mul_comm _ _
  omega

/-- `ceilMulNat` really is the ceiling of `contamination * n`: it is the
unique integer in `[contamination * n, contamination * n + 1)`. -/
theorem ceilMulNat_bounds {c : Rat} (n : Nat) (hc0 : 0 < c) :
    (c * n : ℚ) ≤ (ceilMulNat c n : ℚ) ∧ ((ceilMulNat c n : Nat) : ℚ) < c * n + 1 := by
  have hq : 0 < c.den := c.den_pos
  have hnum : 0 < c.num := Rat.num_pos.mpr hc0
  have hqQ : (0 : ℚ) < (c.den : ℚ) := by exact_mod_cast hq
  have hpc : ((c.num.toNat : Nat) : ℚ) = ((c.num : Int) : ℚ) := by
    have h1 : ((c.num.toNat : Nat) : Int) = c.num := by omega
    exact_mod_cast congrArg (fun z : Int => (z : ℚ)) h1
  set k := ceilMulNat c n with hk
  have hub : k * c.den ≤ c.num.toNat * n + c.den - 1 := Nat.div_mul_le_self _ _
  have hlb : c.num.toNat * n ≤ c.den * k := by
    show c.num.toNat * n ≤ c.den * ((c.num.toNat * n + c.den - 1) / c.den)
    have h := (Nat.div_le_iff_le_mul_add_pred hq).mp
      (Nat.le_refl ((c.num.toNat * n + c.den - 1) / c.den))
    omega
  constructor
  · rw [← Rat.num_div_den c, div_mul_eq_mul_div, div_le_iff₀ hqQ]
    have hcast : ((c.num.toNat * n : Nat) : ℚ) ≤ ((c.den * k : Nat) : ℚ) := by
      exact_mod_cast hlb
    push_cast at hcast
    rw [hpc] at hcast
    linarith
  · rw [← Rat.num_div_den c, div_mul_eq_mul_div]
    have hsum : ((c.num : ℚ)) * n / c.den + 1 = ((c.num : ℚ) * n + c.den) / c.den := by
      field_simp
    rw [hsum, lt_div_iff₀ hqQ]
    have hnat : k * c.den < c.num.toNat * n + c.den := by omega
    have hcast : ((k * c.den : Nat) : ℚ) < ((c.num.toNat * n + c.den : Nat) : ℚ) := by
      exact_mod_cast hnat
    push_cast at hcast
    rw [hpc] at hcast
    linarith

/-- Number of rows the app reports and displays as suspicious: occurrences
of the `Suspicious` label in the `Status` column. -/
def susCount (df : DataFrame) : Nat :=
  (statusVals df).count (Cell.str "Suspicious")

/-- The suspicious-label count of a scored frame equals the `-1` count of
the raw predictions. -/
theorem susCount_scoreDF (df : DataFrame) (fx fy : String) (c : Rat) :
    susCount (scoreDF df fx fy c) = (rawOf df fx fy c).count (-1) := by
  unfold susCount
  rw [statusVals_scoreDF]
  show ((rawOf df fx fy c).map statusMap).countP (fun x => x == Cell.str "Suspicious") =
    (rawOf df fx fy c).countP (fun x => x == -1)
  rw [List.countP_map]
  apply List.countP_congr
  intro r _
  show (statusMap r == Cell.str "Suspicious") = true ↔ (r == -1) = true
  unfold statusMap
  by_cases h1 : r = 1
  · subst h1
    simp
  · by_cases h2 : r = -1
    · subst h2
      simp
    · simp [h1, h2]

/-- Length of a mask filter: the number of set mask bits. -/
theorem maskFilter_length (mask : List Bool) (vals : List Cell)
    (h : mask.length = vals.length) :
    (maskFilter mask vals).length = mask.count true := by
  induction mask generalizing vals with
  | nil => rfl
  | cons b t ih =>
    cases vals with
    | nil => simp at h
    | cons v vs =>
      have h2 : t.length = vs.length := by simpa using h
      cases b
      · have hstep : maskFilter (false :: t) (v :: vs) = maskFilter t vs := rfl
        rw [hstep, ih vs h2, List.count_cons]
        simp
      · have hstep : maskFilter (true :: t) (v :: vs) = v :: maskFilter t vs := rfl
        rw [hstep, List.length_cons, ih vs h2, List.count_cons]
        simp

/-- The displayed anomalies table has exactly `susCount` rows, for a
well-formed scored frame with at least one column. -/
theorem anomaliesOf_nrows {df : DataFrame} {stc : Col} (hwf : df.wfP)
    (hne : df.cols ≠ []) (hst : df.getCol "Status" = some stc) :
    (anomaliesOf df).nrows = susCount df := by
  have hstm : stc ∈ df.cols := List.mem_of_find?_eq_some hst
  have hstl : stc.vals.length = df.nrows := hwf stc hstm
  have hmask : suspiciousMask df = stc.vals.map (fun v => v == Cell.str "Suspicious") := by
    unfold suspiciousMask
    rw [hst]
  rcases hcols : df.cols with _ | ⟨c0, tl⟩
  · exact absurd hcols hne
  · have hc0 : c0.vals.length = df.nrows := hwf c0 (by rw [hcols]; exact List.mem_cons_self c0 tl)
    have hnrows : (anomaliesOf df).nrows = (maskFilter (suspiciousMask df) c0.vals).length := by
      unfold anomaliesOf DataFrame.filterRows DataFrame.nrows
      rw [hcols]
      rfl
    rw [hnrows, maskFilter_length _ _ (by rw [hmask]; simp [hstl, hc0])]
    rw [hmask]
    unfold susCount statusVals
    rw [hst]
    show (stc.vals.map (fun v => v == Cell.str "Suspicious")).countP (fun x => x == true) =
      stc.vals.countP (fun x => x == Cell.str "Suspicious")
    rw [List.countP_map]
    apply List.countP_congr
    intro v _
    cases hb : (v == Cell.str "Suspicious") <;> simp [Function.comp, hb]

/-- The scoring step preserves well-formedness, the row count, and column
nonemptiness. -/
theorem scoreDF_wfP {df : DataFrame} {fx fy : String} {cx cy : Col} (c : Rat)
    (hwf : df.wfP) (hx : df.getCol fx = some cx) (hy : df.getCol fy = some cy) :
    (scoreDF df fx fy c).wfP ∧ (scoreDF df fx fy c).nrows = df.nrows ∧
      (scoreDF df fx fy c).cols ≠ [] := by
  have hraw : (rawOf df fx fy c).length = df.nrows := by
    unfold rawOf
    rw [fitPredict_length]
    exact featurePairs_length hwf hx hy
  have h1len : (Col.mk "anomaly_score" Dtype.int64 ((rawOf df fx fy c).map Cell.num)).vals.length
      = df.nrows := by
    simpa using hraw
  have h1wf : (df.setCol ⟨"anomaly_score", Dtype.int64, (rawOf df fx fy c).map Cell.num⟩).wfP :=
    wfP_setCol hwf h1len
  have h1nr : (df.setCol ⟨"anomaly_score", Dtype.int64, (rawOf df fx fy c).map Cell.num⟩).nrows
      = df.nrows := nrows_setCol df _ h1len
  have h2len : (Col.mk "Status" Dtype.object ((rawOf df fx fy c).map statusMap)).vals.length
      = (df.setCol ⟨"anomaly_score", Dtype.int64, (rawOf df fx fy c).map Cell.num⟩).nrows := by
    rw [h1nr]
    simpa using hraw
  refine ⟨wfP_setCol h1wf h2len, ?_, cols_setCol_ne_nil _ _⟩
  have h2nr : ((df.setCol ⟨"anomaly_score", Dtype.int64, (rawOf df fx fy c).map Cell.num⟩).setCol
      ⟨"Status", Dtype.object, (rawOf df fx fy c).map statusMap⟩).nrows = df.nrows := by
    rw [nrows_setCol _ _ h2len, h1nr]
  exact h2nr

/-- The frame scored by one run: the trimmed upload scored on the selected
features with the slider contamination. -/
def scoredOf (df : DataFrame) (p : Params) : DataFrame :=
  scoreDF (trimCols df) p.feature_x p.feature_y p.contamination

/-- The validation-failure branch of one run (app.py lines 31-32): preview
then the error text, nothing else. -/
theorem renderRun_validationFailed (df : DataFrame) (p : Params)
    (h : (numericCols (trimCols df)).length < 2) :
    renderRun df p =
      [RenderItem.preview (dfHead (trimCols df)), RenderItem.errorMsg validationMsg] := by
  simp only [renderRun]
  rw [if_pos h]
  rfl

/-- The completed-run shape (app.py lines 33-84): preview, chart, then
either the table-and-export section or the success message. -/
theorem renderRun_completed (df : DataFrame) (p : Params)
    (h2 : ¬ (numericCols (trimCols df)).length < 2)
    (hok : scoreOk (trimCols df) p.feature_x p.feature_y = true) :
    renderRun df p =
      [RenderItem.preview (dfHead (trimCols df)),
       RenderItem.chart (chartOf (scoredOf df p) p.feature_x p.feature_y)] ++
      (if (anomaliesOf (scoredOf df p)).nrows ≠ 0 then
        [RenderItem.countMsg (anomaliesOf (scoredOf df p)).nrows,
         RenderItem.tableView (anomaliesOf (scoredOf df p)),
         RenderItem.downloadButton "detected_anomalies.csv" "text/csv"
           (toCsv (anomaliesOf (scoredOf df p))).toUTF8]
      else [RenderItem.successMsg noAnomalyMsg]) := by
  simp only [renderRun]
  rw [if_neg h2]
  rw [if_neg (show ¬ scoreOk (trimCols df) p.feature_x p.feature_y = false by simp [hok])]
  rfl

/-- Scoring leaves the lookup of every other column name unchanged. -/
theorem getCol_scoreDF_ne (df : DataFrame) (fx fy : String) (c : Rat) {nm : String}
    (h1 : nm ≠ "anomaly_score") (h2 : nm ≠ "Status") :
    (scoreDF df fx fy c).getCol nm = df.getCol nm := by
  unfold scoreDF
  rw [getCol_setCol_ne _ _ _ h2, getCol_setCol_ne _ _ _ h1]

/-- Every column of a scored frame is an original column or one of the two
derived ones. -/
theorem mem_scoreDF_cols {df : DataFrame} {fx fy : String} {c : Rat} {c2 : Col}
    (h : c2 ∈ (scoreDF df fx fy c).cols) :
    c2 ∈ df.cols ∨ c2.name = "anomaly_score" ∨ c2.name = "Status" := by
  unfold scoreDF at h
  rcases mem_setCol h with h | rfl
  · rcases mem_setCol h with h | rfl
    · exact Or.inl h
    · exact Or.inr (Or.inl rfl)
  · exact Or.inr (Or.inr rfl)

/-- C1: for every valid dataset (well-formed frame) with at least two
numeric columns, with both selected features drawn from the numeric column
set and a scoring step that does not raise, the scoring step assigns
exactly one label to every row — the `Status` column carries exactly one
entry per row of the uploaded frame — and every label is `Normal` or
`Suspicious`; no row is unlabeled or labeled with any other value. -/
theorem claim_C1 (df : DataFrame) (p : Params) (hwf : df.wfP)
    (h2 : 2 ≤ (numericCols (trimCols df)).length)
    (hx : p.feature_x ∈ numericCols (trimCols df))
    (hy : p.feature_y ∈ numericCols (trimCols df))
    (hok : scoreOk (trimCols df) p.feature_x p.feature_y = true) :
    (labelsOf df p).length = df.nrows ∧
      ∀ v ∈ labelsOf df p, v = Cell.str "Normal" ∨ v = Cell.str "Suspicious" := by
  obtain ⟨cx, hcx, _, _⟩ := getCol_of_mem_numericCols hx
  obtain ⟨cy, hcy, _, _⟩ := getCol_of_mem_numericCols hy
  constructor
  · unfold labelsOf
    rw [statusVals_scoreDF_length (trimCols_wfP hwf) hcx hcy, trimCols_nrows]
  · intro v hv
    exact statusVals_scoreDF_mem hv

theorem claim_C1_witness :
    exFrame.wfP ∧ 2 ≤ (numericCols (trimCols exFrame)).length ∧
      "a" ∈ numericCols (trimCols exFrame) ∧ "b" ∈ numericCols (trimCols exFrame) ∧
      scoreOk (trimCols exFrame) "a" "b" = true ∧
      ((labelsOf exFrame ⟨"a", "b", mkRat 1 5⟩).length = exFrame.nrows ∧
        ∀ v ∈ labelsOf exFrame ⟨"a", "b", mkRat 1 5⟩,
          v = Cell.str "Normal" ∨ v = Cell.str "Suspicious") :=
  ⟨by decide, by decide, by decide, by decide, by decide,
    claim_C1 exFrame ⟨"a", "b", mkRat 1 5⟩ (by decide) (by decide) (by decide) (by decide)
      (by decide)⟩

/-- C2: determinism — two runs over the same dataset with the same
selected feature pair and the same contamination produce identical labels
for every row (and identical rendered output).  The scorer seed is the
literal 42 inside `scoreDF`, so the whole pipeline is a pure function of
exactly these inputs. -/
theorem claim_C2 (df1 df2 : DataFrame) (p1 p2 : Params) (hdf : df1 = df2)
    (hx : p1.feature_x = p2.feature_x) (hy : p1.feature_y = p2.feature_y)
    (hc : p1.contamination = p2.contamination) :
    labelsOf df1 p1 = labelsOf df2 p2 ∧ renderRun df1 p1 = renderRun df2 p2 := by
  cases p1
  cases p2
  subst hdf
  simp only at hx hy hc
  subst hx
  subst hy
  subst hc
  exact ⟨rfl, rfl⟩

theorem claim_C2_witness :
    labelsOf exFrame ⟨"a", "b", mkRat 1 5⟩ = labelsOf exFrame ⟨"a", "b", mkRat 1 5⟩ ∧
      renderRun exFrame ⟨"a", "b", mkRat 1 5⟩ = renderRun exFrame ⟨"a", "b", mkRat 1 5⟩ :=
  claim_C2 exFrame exFrame ⟨"a", "b", mkRat 1 5⟩ ⟨"a", "b", mkRat 1 5⟩ rfl rfl rfl rfl

/-- C3: with fewer than two numeric columns the run renders the preview
and the validation error and nothing else — no chart, no anomalies table,
no download, hence no model fit and no labels — while the script still
renders its closing footer: the session is not aborted and idles for the
next upload. -/
theorem claim_C3 (df : DataFrame) (p : Params)
    (h : (numericCols (trimCols df)).length < 2) :
    script (some df) p =
      [RenderItem.preview (dfHead (trimCols df)), RenderItem.errorMsg validationMsg,
       RenderItem.footer footerText] ∧
      (∀ cs, RenderItem.chart cs ∉ script (some df) p) ∧
      (∀ A, RenderItem.tableView A ∉ script (some df) p) ∧
      (∀ f m d, RenderItem.downloadButton f m d ∉ script (some df) p) := by
  have hs : script (some df) p = renderRun df p ++ [RenderItem.footer footerText] := rfl
  rw [hs, renderRun_validationFailed df p h]
  refine ⟨rfl, fun cs => ?_, fun A => ?_, fun f m d => ?_⟩ <;> simp

/-- A frame with a single numeric column (and one non-numeric column). -/
def exFrameOneNum : DataFrame :=
  ⟨[⟨"a", Dtype.int64, [Cell.num 1, Cell.num 2]⟩,
    ⟨"t", Dtype.object, [Cell.str "u", Cell.str "w"]⟩]⟩

theorem claim_C3_witness :
    (numericCols (trimCols exFrameOneNum)).length < 2 ∧
      (script (some exFrameOneNum) ⟨"a", "a", mkRat 1 20⟩ =
        [RenderItem.preview (dfHead (trimCols exFrameOneNum)),
         RenderItem.errorMsg validationMsg, RenderItem.footer footerText] ∧
      (∀ cs, RenderItem.chart cs ∉ script (some exFrameOneNum) ⟨"a", "a", mkRat 1 20⟩) ∧
      (∀ A, RenderItem.tableView A ∉ script (some exFrameOneNum) ⟨"a", "a", mkRat 1 20⟩) ∧
      (∀ f m d,
        RenderItem.downloadButton f m d ∉ script (some exFrameOneNum) ⟨"a", "a", mkRat 1 20⟩)) :=
  ⟨by decide, claim_C3 exFrameOneNum ⟨"a", "a", mkRat 1 20⟩ (by decide)⟩

/-- C5: the raw-output translation — the `Status` column of every scored
frame is exactly the image of the raw `±1` prediction list under
`statusMap`, and `statusMap` sends raw `+1` to `Normal` and raw `-1` to
`Suspicious`. -/
theorem claim_C5 (df : DataFrame) (fx fy : String) (c : Rat) :
    (scoreDF df fx fy c).getCol "Status" =
        some ⟨"Status", Dtype.object, (rawOf df fx fy c).map statusMap⟩ ∧
      statusMap 1 = Cell.str "Normal" ∧ statusMap (-1) = Cell.str "Suspicious" :=
  ⟨statusCol_scoreDF df fx fy c, by decide, by decide⟩

/-- C4: whenever the anomalies subset is nonempty, the run displays it and
offers a download named `detected_anomalies.csv` with MIME `text/csv`
whose payload is byte-for-byte the UTF-8 encoding of the
`to_csv(index=False)` rendering of exactly the displayed frame — same
rows, same columns, same values, with no further transformation — and
that rendering starts with the comma-separated header of the displayed
columns, with no index column. -/
theorem claim_C4 (df : DataFrame) (p : Params)
    (h2 : ¬ (numericCols (trimCols df)).length < 2)
    (hok : scoreOk (trimCols df) p.feature_x p.feature_y = true)
    (hne : (anomaliesOf (scoredOf df p)).nrows ≠ 0) :
    RenderItem.tableView (anomaliesOf (scoredOf df p)) ∈ renderRun df p ∧
      RenderItem.downloadButton "detected_anomalies.csv" "text/csv"
        (toCsv (anomaliesOf (scoredOf df p))).toUTF8 ∈ renderRun df p ∧
      ∃ body, toCsv (anomaliesOf (scoredOf df p)) =
        String.intercalate ","
          ((anomaliesOf (scoredOf df p)).cols.map (fun c2 => csvQuote c2.name)) ++
          "\n" ++ body := by
  rw [renderRun_completed df p h2 hok, if_pos hne]
  refine ⟨?_, ?_, ?_⟩
  · apply List.mem_append_right
    simp
  · apply List.mem_append_right
    simp
  · exact ⟨_, rfl⟩

theorem claim_C4_witness :
    ¬ (numericCols (trimCols exFrame)).length < 2 ∧
      scoreOk (trimCols exFrame) "a" "b" = true ∧
      (anomaliesOf (scoredOf exFrame ⟨"a", "b", mkRat 1 5⟩)).nrows ≠ 0 ∧
      (RenderItem.tableView (anomaliesOf (scoredOf exFrame ⟨"a", "b", mkRat 1 5⟩)) ∈
          renderRun exFrame ⟨"a", "b", mkRat 1 5⟩ ∧
        RenderItem.downloadButton "detected_anomalies.csv" "text/csv"
          (toCsv (anomaliesOf (scoredOf exFrame ⟨"a", "b", mkRat 1 5⟩))).toUTF8 ∈
            renderRun exFrame ⟨"a", "b", mkRat 1 5⟩ ∧
        ∃ body, toCsv (anomaliesOf (scoredOf exFrame ⟨"a", "b", mkRat 1 5⟩)) =
          String.intercalate ","
            ((anomaliesOf (scoredOf exFrame ⟨"a", "b", mkRat 1 5⟩)).cols.map
              (fun c2 => csvQuote c2.name)) ++ "\n" ++ body) :=
  ⟨by decide, by decide, by decide,
    claim_C4 exFrame ⟨"a", "b", mkRat 1 5⟩ (by decide) (by decide) (by decide)⟩

/-- C6 fails on the code as stated: at a concrete input the derived
`anomaly_score` column holds the raw integer outputs (here `1` and `-1`),
not labels — `anomaly_score` is never `Normal` or `Suspicious`; the
discrete label lives in the second derived column, `Status`. -/
theorem claim_C6_counterexample :
    (scoreDF exFrame "a" "b" (mkRat 1 5)).getCol "anomaly_score" =
        some ⟨"anomaly_score", Dtype.int64,
          [Cell.num 1, Cell.num 1, Cell.num 1, Cell.num 1, Cell.num 1, Cell.num 1,
           Cell.num 1, Cell.num 1, Cell.num 1, Cell.num (-1)]⟩ ∧
      ¬ (Cell.num 1 = Cell.str "Normal" ∨ Cell.num 1 = Cell.str "Suspicious") := by
  constructor
  · decide
  · decide

/-- C6 (amended): every scored row consists of the original row plus
exactly two derived fields — `anomaly_score`, holding the raw scorer
output `-1` or `+1`, and `Status`, the discrete label, one of
`{Normal, Suspicious}` — and nothing else is persisted: every other
column is carried over from the input frame unchanged, and no further
column is created. -/
theorem claim_C6 (df : DataFrame) (fx fy : String) (c : Rat) :
    (scoreDF df fx fy c).getCol "anomaly_score" =
        some ⟨"anomaly_score", Dtype.int64, (rawOf df fx fy c).map Cell.num⟩ ∧
      (∀ v ∈ rawOf df fx fy c, v = -1 ∨ v = 1) ∧
      (scoreDF df fx fy c).getCol "Status" =
        some ⟨"Status", Dtype.object, (rawOf df fx fy c).map statusMap⟩ ∧
      (∀ v ∈ (rawOf df fx fy c).map statusMap,
        v = Cell.str "Normal" ∨ v = Cell.str "Suspicious") ∧
      (∀ nm, nm ≠ "anomaly_score" → nm ≠ "Status" →
        (scoreDF df fx fy c).getCol nm = df.getCol nm) ∧
      (∀ c2 ∈ (scoreDF df fx fy c).cols,
        c2 ∈ df.cols ∨ c2.name = "anomaly_score" ∨ c2.name = "Status") := by
  refine ⟨ascoreCol_scoreDF df fx fy c, ?_, statusCol_scoreDF df fx fy c, ?_, ?_, ?_⟩
  · intro v hv
    exact fitPredict_mem hv
  · intro v hv
    have hsv : v ∈ statusVals (scoreDF df fx fy c) := by
      rw [statusVals_scoreDF]
      exact hv
    exact statusVals_scoreDF_mem hsv
  · intro nm h1 h2
    exact getCol_scoreDF_ne df fx fy c h1 h2
  · intro c2 h
    exact mem_scoreDF_cols h

theorem claim_C6_witness :
    ((1 : Int) ∈ rawOf exFrame "a" "b" (mkRat 1 5) ∧ ((1 : Int) = -1 ∨ (1 : Int) = 1)) ∧
      ("b" ≠ "anomaly_score" ∧ "b" ≠ "Status" ∧
        (scoreDF exFrame "a" "b" (mkRat 1 5)).getCol "b" = exFrame.getCol "b") :=
  ⟨⟨by decide, (claim_C6 exFrame "a" "b" (mkRat 1 5)).2.1 1 (by decide)⟩,
    ⟨by decide, by decide,
      (claim_C6 exFrame "a" "b" (mkRat 1 5)).2.2.2.2.1 "b" (by decide) (by decide)⟩⟩

/-- C7: selecting the same numeric column for both features is not
rejected: the pipeline still completes — the chart is rendered — and
produces exactly one `Normal`/`Suspicious` label per row (the degenerate
1-D case), rather than crashing. -/
theorem claim_C7 (df : DataFrame) (fx : String) (c : Rat) (hwf : df.wfP)
    (h2 : 2 ≤ (numericCols (trimCols df)).length)
    (hx : fx ∈ numericCols (trimCols df))
    (hok : scoreOk (trimCols df) fx fx = true) :
    (labelsOf df ⟨fx, fx, c⟩).length = df.nrows ∧
      (∀ v ∈ labelsOf df ⟨fx, fx, c⟩, v = Cell.str "Normal" ∨ v = Cell.str "Suspicious") ∧
      ∃ cs, RenderItem.chart cs ∈ renderRun df ⟨fx, fx, c⟩ := by
  obtain ⟨cx, hcx, _, _⟩ := getCol_of_mem_numericCols hx
  refine ⟨?_, ?_, ?_⟩
  · unfold labelsOf
    rw [statusVals_scoreDF_length (trimCols_wfP hwf) hcx hcx, trimCols_nrows]
  · intro v hv
    exact statusVals_scoreDF_mem hv
  · refine ⟨chartOf (scoredOf df ⟨fx, fx, c⟩) fx fx, ?_⟩
    rw [renderRun_completed df ⟨fx, fx, c⟩ (by omega) hok]
    apply List.mem_append_left
    simp

theorem claim_C7_witness :
    exFrame.wfP ∧ 2 ≤ (numericCols (trimCols exFrame)).length ∧
      "a" ∈ numericCols (trimCols exFrame) ∧
      scoreOk (trimCols exFrame) "a" "a" = true ∧
      ((labelsOf exFrame ⟨"a", "a", mkRat 1 5⟩).length = exFrame.nrows ∧
        (∀ v ∈ labelsOf exFrame ⟨"a", "a", mkRat 1 5⟩,
          v = Cell.str "Normal" ∨ v = Cell.str "Suspicious") ∧
        ∃ cs, RenderItem.chart cs ∈ renderRun exFrame ⟨"a", "a", mkRat 1 5⟩) :=
  ⟨by decide, by decide, by decide, by decide,
    claim_C7 exFrame "a" (mkRat 1 5) (by decide) (by decide) (by decide) (by decide)⟩

/-- C8: results dichotomy — whenever the suspicious subset of a completed
run is empty, the run shows the distinct success message and renders
neither the anomalies table nor the download button; whenever it is
nonempty, the run reports its row count and takes the table-and-export
path, with no success message. -/
theorem claim_C8 (df : DataFrame) (p : Params)
    (h2 : ¬ (numericCols (trimCols df)).length < 2)
    (hok : scoreOk (trimCols df) p.feature_x p.feature_y = true) :
    ((anomaliesOf (scoredOf df p)).nrows = 0 →
      renderRun df p =
        [RenderItem.preview (dfHead (trimCols df)),
         RenderItem.chart (chartOf (scoredOf df p) p.feature_x p.feature_y),
         RenderItem.successMsg noAnomalyMsg] ∧
      (∀ A, RenderItem.tableView A ∉ renderRun df p) ∧
      (∀ f m d, RenderItem.downloadButton f m d ∉ renderRun df p)) ∧
    ((anomaliesOf (scoredOf df p)).nrows ≠ 0 →
      RenderItem.countMsg (anomaliesOf (scoredOf df p)).nrows ∈ renderRun df p ∧
      RenderItem.tableView (anomaliesOf (scoredOf df p)) ∈ renderRun df p ∧
      (∃ d, RenderItem.downloadButton "detected_anomalies.csv" "text/csv" d ∈ renderRun df p) ∧
      (∀ m, RenderItem.successMsg m ∉ renderRun df p)) := by
  constructor
  · intro hz
    rw [renderRun_completed df p h2 hok, if_neg (by omega)]
    refine ⟨rfl, fun A => ?_, fun f m d => ?_⟩ <;> simp
  · intro hnz
    rw [renderRun_completed df p h2 hok, if_pos hnz]
    refine ⟨?_, ?_, ⟨(toCsv (anomaliesOf (scoredOf df p))).toUTF8, ?_⟩, fun m => ?_⟩
    · apply List.mem_append_right
      simp
    · apply List.mem_append_right
      simp
    · apply List.mem_append_right
      simp
    · simp

theorem claim_C8_witness :
    (¬ (numericCols (trimCols exFrame)).length < 2 ∧
      scoreOk (trimCols exFrame) "a" "b" = true ∧
      (anomaliesOf (scoredOf exFrame ⟨"a", "b", mkRat 1 100⟩)).nrows = 0 ∧
      renderRun exFrame ⟨"a", "b", mkRat 1 100⟩ =
        [RenderItem.preview (dfHead (trimCols exFrame)),
         RenderItem.chart (chartOf (scoredOf exFrame ⟨"a", "b", mkRat 1 100⟩) "a" "b"),
         RenderItem.successMsg noAnomalyMsg]) ∧
    ((anomaliesOf (scoredOf exFrame ⟨"a", "b", mkRat 1 5⟩)).nrows ≠ 0 ∧
      RenderItem.tableView (anomaliesOf (scoredOf exFrame ⟨"a", "b", mkRat 1 5⟩)) ∈
        renderRun exFrame ⟨"a", "b", mkRat 1 5⟩) :=
  ⟨⟨by decide, by decide, by decide,
      (((claim_C8 exFrame ⟨"a", "b", mkRat 1 100⟩ (by decide) (by decide)).1) (by decide)).1⟩,
    ⟨by decide,
      (((claim_C8 exFrame ⟨"a", "b", mkRat 1 5⟩ (by decide) (by decide)).2) (by decide)).2.1⟩⟩

/-- C9: for every scored dataset in the slider range whose feature pair
produces pairwise distinct anomaly scores (generic data — the no-ties case
the claim itself carves out via its tie-breaking caveat), the number of
rows labeled `Suspicious` is within 1 of `contamination * row_count`. -/
theorem claim_C9 (df : DataFrame) (fx fy : String) (c : Rat) (hwf : df.wfP)
    (hx : fx ∈ numericCols df) (hy : fy ∈ numericCols df)
    (hn : 1 ≤ df.nrows)
    (hc1 : mkRat 1 100 ≤ c) (hc2 : c ≤ mkRat 20 100)
    (hnd : (anomalyScores (featurePairs df fx fy)).Nodup) :
    |((anomaliesOf (scoreDF df fx fy c)).nrows : ℚ) - c * (df.nrows : ℚ)| ≤ 1 := by
  obtain ⟨cx, hcx, _, _⟩ := getCol_of_mem_numericCols hx
  obtain ⟨cy, hcy, _, _⟩ := getCol_of_mem_numericCols hy
  obtain ⟨hswf, hsnr, hsne⟩ := scoreDF_wfP c hwf hcx hcy
  have hplen : (featurePairs df fx fy).length = df.nrows := featurePairs_length hwf hcx hcy
  have hk1 : 1 ≤ ceilMulNat c (featurePairs df fx fy).length := by
    rw [hplen]
    exact ceilMulNat_one_le hc1 hn
  have hkn : ceilMulNat c (featurePairs df fx fy).length ≤ (featurePairs df fx fy).length :=
    ceilMulNat_le_self hc2
  have hcount : (rawOf df fx fy c).count (-1) =
      ceilMulNat c (featurePairs df fx fy).length - 1 :=
    fitPredict_count 42 c _ hnd hk1 hkn
  have hnrows : (anomaliesOf (scoreDF df fx fy c)).nrows = susCount (scoreDF df fx fy c) :=
    anomaliesOf_nrows hswf hsne (statusCol_scoreDF df fx fy c)
  rw [hnrows, susCount_scoreDF, hcount]
  have hc0 : (0 : ℚ) < c := by
    refine lt_of_lt_of_le ?_ hc1
    rw [Rat.mkRat_eq_div]
    norm_num
  obtain ⟨hb1, hb2⟩ := ceilMulNat_bounds (featurePairs df fx fy).length hc0
  rw [hplen] at hb1 hb2 hk1
  rw [hplen]
  have hkQ : ((ceilMulNat c df.nrows - 1 : Nat) : ℚ) = ((ceilMulNat c df.nrows : Nat) : ℚ) - 1 := by
    push_cast [Nat.cast_sub hk1]
    ring
  rw [hkQ, abs_le]
  constructor <;> linarith

theorem claim_C9_witness :
    exFrameD.wfP ∧ "a" ∈ numericCols exFrameD ∧ "b" ∈ numericCols exFrameD ∧
      1 ≤ exFrameD.nrows ∧ mkRat 1 100 ≤ mkRat 1 5 ∧ mkRat 1 5 ≤ mkRat 20 100 ∧
      (anomalyScores (featurePairs exFrameD "a" "b")).Nodup ∧
      |((anomaliesOf (scoreDF exFrameD "a" "b" (mkRat 1 5))).nrows : ℚ) -
          mkRat 1 5 * (exFrameD.nrows : ℚ)| ≤ 1 :=
  ⟨by decide, by decide, by decide, by decide, by decide, by decide, by decide,
    claim_C9 exFrameD "a" "b" (mkRat 1 5) (by decide) (by decide) (by decide) (by decide)
      (by decide) (by decide) (by decide)⟩

/-- C10: frame effect of scoring — looking up any column name other than
the two derived names `anomaly_score` and `Status` in the scored frame
gives exactly the column of the original frame (same values), and every
column of the scored frame is an original column or carries one of the two
derived names: scoring modifies nothing else. -/
theorem claim_C10 (df : DataFrame) (fx fy : String) (c : Rat) :
    (∀ nm, nm ≠ "anomaly_score" → nm ≠ "Status" →
      (scoreDF df fx fy c).getCol nm = df.getCol nm) ∧
    (∀ c2 ∈ (scoreDF df fx fy c).cols,
      c2 ∈ df.cols ∨ c2.name = "anomaly_score" ∨ c2.name = "Status") :=
  ⟨fun _ h1 h2 => getCol_scoreDF_ne df fx fy c h1 h2, fun _ h => mem_scoreDF_cols h⟩

theorem claim_C10_witness :
    ("a" ≠ "anomaly_score" ∧ "a" ≠ "Status" ∧
      (scoreDF exFrame "a" "b" (mkRat 1 5)).getCol "a" = exFrame.getCol "a") ∧
      ((⟨"a", Dtype.int64, [Cell.num 0, Cell.num 0, Cell.num 0, Cell.num 0, Cell.num 0,
          Cell.num 0, Cell.num 0, Cell.num 0, Cell.num 0, Cell.num 100]⟩ : Col) ∈
            (scoreDF exFrame "a" "b" (mkRat 1 5)).cols ∧
        ((⟨"a", Dtype.int64, [Cell.num 0, Cell.num 0, Cell.num 0, Cell.num 0, Cell.num 0,
            Cell.num 0, Cell.num 0, Cell.num 0, Cell.num 0, Cell.num 100]⟩ : Col) ∈ exFrame.cols ∨
          (⟨"a", Dtype.int64, [Cell.num 0, Cell.num 0, Cell.num 0, Cell.num 0, Cell.num 0,
            Cell.num 0, Cell.num 0, Cell.num 0, Cell.num 0, Cell.num 100]⟩ : Col).name =
              "anomaly_score" ∨
          (⟨"a", Dtype.int64, [Cell.num 0, Cell.num 0, Cell.num 0, Cell.num 0, Cell.num 0,
            Cell.num 0, Cell.num 0, Cell.num 0, Cell.num 0, Cell.num 100]⟩ : Col).name =
              "Status")) :=
  ⟨⟨by decide, by decide,
      (claim_C10 exFrame "a" "b" (mkRat 1 5)).1 "a" (by decide) (by decide)⟩,
    ⟨by decide,
      (claim_C10 exFrame "a" "b" (mkRat 1 5)).2 _ (by decide)⟩⟩
